import Mathlib

/-! # Portfolio-Reactjs: the behavioural core of `src/App.jsx`

A shallow embedding of the event handlers of the `App` component
(`updateScrollState`, `handleContactSubmit`, the idle monitor and
`handleScrollIndicator`) together with the few
pieces of the JavaScript platform they observe (truthiness, `String.prototype.trim`,
optional property access, `ToString`), followed by theorems about them.
-/

namespace Portfolio

/-! ## JavaScript values as `JSON.parse` produces them -/

/-- A JavaScript Number, reduced to the two observations the handler makes of one:
its truthiness (`false` for `0`, `-0`) and its `ToString` rendering. -/
structure JsNumber where
  nonZero : Bool
  display : String
deriving DecidableEq, Repr

/-- The values `JSON.parse` can return.  An object is the list of its own
properties; a key is looked up by its first binding. -/
inductive JsValue where
  | null : JsValue
  | bool (b : Bool) : JsValue
  | num (n : JsNumber) : JsValue
  | str (s : String) : JsValue
  | arr (items : List JsValue) : JsValue
  | obj (props : List (String × JsValue)) : JsValue

/-- The ToBoolean conversion used by `!x`, `if (x)` and `x || y`. -/
def JsValue.truthy : JsValue → Bool
  | .null => false
  | .bool b => b
  | .num n => n.nonZero
  | .str s => s != ""
  | .arr _ => true
  | .obj _ => true

/-- Own-property lookup in a property list. -/
def lookupProp (key : String) : List (String × JsValue) → Option JsValue
  | [] => none
  | (k, v) :: rest => if k = key then some v else lookupProp key rest

/-- The access `v?.key` for a key that no built-in prototype defines (`message`, `status`):
`none` stands for `undefined`.  Only objects parsed from JSON carry such a key. -/
def JsValue.getProp (v : JsValue) (key : String) : Option JsValue :=
  match v with
  | .obj props => lookupProp key props
  | _ => none

/-- True when a property list has an own property of that name. -/
def hasOwn (key : String) : List (String × JsValue) → Bool
  | [] => false
  | (k, _) :: rest => k = key || hasOwn key rest

mutual
/-- The ToString conversion that `new Error(v)` applies to its argument.  It fails
(`none`, a TypeError of the engine) on an object whose own `toString` property hides
`Object.prototype.toString`: a value parsed from JSON is never callable, and
`Object.prototype.valueOf` returns the object itself. -/
def JsValue.toStr : JsValue → Option String
  | .null => some "null"
  | .bool b => some (if b then "true" else "false")
  | .num n => some n.display
  | .str s => some s
  | .arr items => joinItems items
  | .obj props => if hasOwn "toString" props then none else some "[object Object]"
/-- The `Array.prototype.join` with the default separator: a `null` element renders
as the empty string, any other element by ToString. -/
def joinItems : List JsValue → Option String
  | [] => some ""
  | .null :: rest => joinRest (some "") rest
  | x :: rest => joinRest (JsValue.toStr x) rest
termination_by structural xs => xs
/-- The tail of a `join`: every further element is preceded by a comma. -/
def joinRest (acc : Option String) : List JsValue → Option String
  | [] => acc
  | .null :: rest => joinRest (acc.bind fun a => some (a ++ ",")) rest
  | x :: rest =>
    joinRest (acc.bind fun a => (JsValue.toStr x).bind fun b => some (a ++ "," ++ b)) rest
end

/-- The `x || fallback` of the handler on an optional property: the property when it is
present and truthy, the fallback string otherwise. -/
def orFallback (x : Option JsValue) (fallback : String) : JsValue :=
  match x with
  | some v => if v.truthy then v else .str fallback
  | none => .str fallback

/-- The comparison `x === s` of an optional property with a string literal: true only
for a string value with the same characters. -/
def strictEqStr (x : Option JsValue) (s : String) : Bool :=
  match x with
  | some (.str t) => t = s
  | _ => false

/-- Truthiness of a value that is either `null`/`undefined` (`none`) or a string. -/
def strTruthy : Option String → Bool
  | none => false
  | some s => s != ""

/-! ## `String.prototype.trim` -/

/-- The code points ECMAScript counts as WhiteSpace or LineTerminator. -/
def isJsWhiteSpace (c : Char) : Bool :=
  let n := c.toNat
  n = 0x09 || n = 0x0A || n = 0x0B || n = 0x0C || n = 0x0D || n = 0x20 || n = 0xA0 ||
  n = 0x1680 || (0x2000 ≤ n && n ≤ 0x200A) || n = 0x2028 || n = 0x2029 || n = 0x202F ||
  n = 0x205F || n = 0x3000 || n = 0xFEFF

/-- The method `String.prototype.trim`: white space removed from both ends. -/
def jsTrim (s : String) : String :=
  String.mk ((s.data.dropWhile isJsWhiteSpace).reverse.dropWhile isJsWhiteSpace).reverse

/-! ## JavaScript numbers -/

/-- An IEEE-754 binary64 value, the Number of JavaScript: not-a-number, an infinity, or
a finite value given by its sign and its magnitude in units of 2^-1074, of which every
finite double is a whole multiple (`fin true 0` is the negative zero). The finite doubles
are the magnitudes below 2^2098 with at most 53 significant binary digits. -/
inductive Double where
  | nan
  | inf (neg : Bool)
  | fin (neg : Bool) (mag : Nat)
deriving DecidableEq, Repr

/-- The number of binary digits of `m`, counted by halving at most `fuel` times. -/
def bitLengthAux : Nat → Nat → Nat
  | 0, _ => 0
  | fuel + 1, m => if m = 0 then 0 else bitLengthAux fuel (m / 2) + 1

/-- The number of binary digits of a natural number. -/
def bitLength (m : Nat) : Nat :=
  bitLengthAux m m

/-- A magnitude rounded to 53 significant binary digits, to the nearest and on a tie to
the even one: the rounding of every arithmetic operation on doubles. -/
def roundBits (m : Nat) : Nat :=
  if bitLength m ≤ 53 then m
  else
    let s := bitLength m - 53
    let q := m / 2 ^ s
    let r := m % 2 ^ s
    let half := 2 ^ (s - 1)
    let n := if r < half then q else if half < r then q + 1 else if q % 2 = 0 then q else q + 1
    n * 2 ^ s

/-- The double nearest to an exact result of the given sign and magnitude; a result that
rounds to 2^1024 or more is an infinity. -/
def Double.round (neg : Bool) (m : Nat) : Double :=
  if 2 ^ 2098 ≤ roundBits m then .inf neg else .fin neg (roundBits m)

/-- The double of a natural number, which a numeric literal such as `4` denotes. -/
def Double.ofNat (n : Nat) : Double :=
  Double.round false (n * 2 ^ 1074)

/-- The unary minus. -/
def Double.neg : Double → Double
  | .nan => .nan
  | .inf s => .inf (!s)
  | .fin s m => .fin (!s) m

/-- The operator `+` on Numbers: the exact sum, rounded. -/
def Double.add : Double → Double → Double
  | .nan, _ => .nan
  | _, .nan => .nan
  | .inf s, .inf t => if s = t then .inf s else .nan
  | .inf s, .fin _ _ => .inf s
  | .fin _ _, .inf t => .inf t
  | .fin s m, .fin t n =>
    if s = t then Double.round s (m + n)
    else if m = n then .fin false 0
    else if n < m then Double.round s (m - n)
    else Double.round t (n - m)

/-- The operator `-` on Numbers: the sum with the negated right operand. -/
def Double.sub (a b : Double) : Double :=
  Double.add a (Double.neg b)

/-- The signed magnitude of a finite double as an integer; both zeros are 0. -/
def signedMag (neg : Bool) (m : Nat) : Int :=
  if neg then -(m : Int) else (m : Int)

/-- The operator `>=` on Numbers: false as soon as an operand is not a number. -/
def Double.ge : Double → Double → Bool
  | .nan, _ => false
  | _, .nan => false
  | .inf s, .inf t => !s || t
  | .inf s, .fin _ _ => !s
  | .fin _ _, .inf t => t
  | .fin s m, .fin t n => decide (signedMag t n ≤ signedMag s m)

/-! ## The page state -/

/-- The `type` of a displayed form status. -/
inductive StatusType where
  | success
  | error
deriving DecidableEq, Repr

/-- The object given to `setFormStatus`. -/
structure FormStatus where
  type : StatusType
  message : String
deriving DecidableEq, Repr

/-- The four `useState` cells of `App`; `formStatus = none` is the initial `null`. -/
structure AppState where
  isIdleVisible : Bool
  isAtBottom : Bool
  formStatus : Option FormStatus
  isSubmitting : Bool
deriving DecidableEq, Repr

/-- The three window measurements the handlers read (`window.innerHeight`,
`window.scrollY`, `document.documentElement.scrollHeight`), Numbers each. -/
structure Viewport where
  innerHeight : Double
  scrollY : Double
  scrollHeight : Double

/-- The function `updateScrollState` (App.jsx, lines 33-37). -/
def updateScrollState (w : Viewport) (st : AppState) : AppState :=
  let scrolled := Double.add w.innerHeight w.scrollY
  let maxScroll := w.scrollHeight
  { st with isAtBottom := Double.ge scrolled (Double.sub maxScroll (Double.ofNat 4)) }

/-! ## The contact form and its environment -/

/-- The entries `new FormData(form)` yields for the four controls of the contact form;
`none` is the `null` that `formData.get` returns for a control that is not there. -/
structure ContactForm where
  name : Option String
  email : Option String
  message : Option String
  website : Option String
deriving DecidableEq, Repr

/-- The method `form.reset()`: no control of the form has a default value, so every
control that exists goes back to the empty string. -/
def ContactForm.reset (f : ContactForm) : ContactForm :=
  { name := f.name.map fun _ => ""
    email := f.email.map fun _ => ""
    message := f.message.map fun _ => ""
    website := f.website.map fun _ => "" }

/-- A thrown error object, reduced to its `message` (`none` when it has none). -/
structure JsError where
  message : Option String
deriving DecidableEq, Repr

/-- What the handler takes from outside the component: the build-time secret
(`import.meta.env.VITE_CONTACT_SECRET`, `none` when undefined), `JSON.parse` (`none`
when it throws) and the TypeError the engine raises when ToString fails. -/
structure Env where
  secret : Option String
  jsonParse : String → Option JsValue
  toPrimitiveError : JsError

/-- The object `payload` of lines 89-94; a field is `none` when `?.` short-circuits. -/
structure Payload where
  name : Option String
  email : Option String
  message : Option String
  secret : Option String
deriving DecidableEq, Repr

/-- A call of `fetch`: the address, the options and the object that is serialised
into the body. -/
structure Request where
  url : String
  method : String
  mode : String
  body : Payload
deriving DecidableEq, Repr

/-- The values of `response.type`. -/
inductive ResponseType where
  | basic
  | cors
  | default
  | error
  | opaqueResponse
  | opaqueredirect
deriving DecidableEq, Repr

/-- A response `fetch` resolved with: `text` is what `await response.text()` gives,
the body or the error it rejects with. -/
structure Response where
  type : ResponseType
  ok : Bool
  status : Nat
  text : Except JsError String

/-- How the awaited `fetch` settles. -/
inductive FetchOutcome where
  | resolved (response : Response)
  | rejected (error : JsError)

/-- What the handler does to the world, in the order it does it. -/
inductive Effect where
  | preventDefault
  | setFormStatus (status : Option FormStatus)
  | setIsSubmitting (value : Bool)
  | fetch (request : Request)
  | readText
  | formReset
deriving DecidableEq, Repr

/-- True for a call of `fetch`. -/
def Effect.isFetch : Effect → Bool
  | .fetch _ => true
  | _ => false

/-- The number of network requests in a run of effects. -/
def networkCalls (effects : List Effect) : Nat :=
  effects.countP Effect.isFetch

/-- The state cells and the form controls, which the effects act on. -/
structure World where
  state : AppState
  form : ContactForm
deriving DecidableEq, Repr

/-- The change one effect makes. -/
def applyEffect (w : World) : Effect → World
  | .preventDefault => w
  | .setFormStatus status => { w with state := { w.state with formStatus := status } }
  | .setIsSubmitting value => { w with state := { w.state with isSubmitting := value } }
  | .fetch _ => w
  | .readText => w
  | .formReset => { w with form := w.form.reset }

/-- The world after a run of effects. -/
def runEffects (w : World) (effects : List Effect) : World :=
  effects.foldl applyEffect w

/-! ## `handleContactSubmit` -/

/-- The address the form posts to (line 106). -/
def contactEndpoint : String :=
  "https://script.google.com/macros/s/AKfycbybTAKDzwJP1AcdlqxV-sK6dhcTVx5iCeLqQPyK1oWCF8XSYPoLV-yOSMG4PrxHOypN9Q/exec"

/-- The status both success paths display. -/
def sentStatus : FormStatus :=
  { type := .success, message := "Message sent! I will get back to you soon." }

/-- The error `throw new Error(v)` raises: an Error whose message is `ToString(v)`, or
the engine's TypeError when that conversion fails. -/
def newError (env : Env) (v : JsValue) : JsError :=
  match v.toStr with
  | some s => { message := some s }
  | none => env.toPrimitiveError

/-- The request of lines 105-112. -/
def contactRequest (payload : Payload) : Request :=
  { url := contactEndpoint, method := "POST", mode := "no-cors", body := payload }

/-- The body of the `try` block (lines 105-137): the effects it performs and whether it
ends normally (`ok`, also through the `return` of line 117) or by a throw. -/
def tryBlock (env : Env) (payload : Payload) (net : FetchOutcome) :
    List Effect × Except JsError Unit :=
  let call := Effect.fetch (contactRequest payload)
  match net with
  | .rejected error => ([call], .error error)
  | .resolved response =>
    if response.type = .opaqueResponse then
      ([call, .formReset, .setFormStatus (some sentStatus)], .ok ())
    else
      match response.text with
      | .error error => ([call, .readText], .error error)
      | .ok responseText =>
        let result := (env.jsonParse responseText).getD .null
        if !response.ok then
          ([call, .readText], .error (newError env (orFallback (result.getProp "message")
            ("Request failed (" ++ toString response.status ++ ")."))))
        else if !strictEqStr (result.getProp "status") "success" then
          ([call, .readText], .error (newError env (orFallback (result.getProp "message")
            "Failed to send message.")))
        else
          ([call, .readText, .formReset, .setFormStatus (some sentStatus)], .ok ())

/-- The `catch` clause (line 139). -/
def catchBlock (error : JsError) : List Effect :=
  [.setFormStatus (some
    { type := .error
      message := if strTruthy error.message then error.message.getD ""
                 else "Something went wrong. Please try again later." })]

/-- The handler `handleContactSubmit` (lines 71-143), run on the state its closure sees,
the form it is attached to and the way the request settles. -/
def handleContactSubmit (env : Env) (st : AppState) (form : ContactForm)
    (net : FetchOutcome) : List Effect :=
  .preventDefault ::
  if st.isSubmitting then []
  else
    let honeypot := form.website
    if strTruthy honeypot then []
    else
      let secret := env.secret
      if !strTruthy secret then
        [.setFormStatus (some { type := .error, message := "Missing secret key configuration." })]
      else
        let payload : Payload :=
          { name := form.name.map jsTrim
            email := form.email.map jsTrim
            message := form.message.map jsTrim
            secret := secret }
        if !strTruthy payload.name || !strTruthy payload.email || !strTruthy payload.message then
          [.setFormStatus (some
            { type := .error, message := "Please fill in all fields before sending." })]
        else
          let (effects, outcome) := tryBlock env payload net
          [.setIsSubmitting true, .setFormStatus none] ++ effects ++
            (match outcome with
             | .ok _ => []
             | .error error => catchBlock error) ++
            [.setIsSubmitting false]

/-- The world once the handler has completed. -/
def submit (env : Env) (w : World) (net : FetchOutcome) : World :=
  runEffects w (handleContactSubmit env w.state w.form net)

/-! ## The conditions of the specification -/

/-- A form field is filled in when it is there and still has a character after trimming. -/
def FieldFilled (v : Option String) : Prop :=
  ∃ s, v = some s ∧ jsTrim s ≠ ""

/-- The hidden `website` field is empty: not there, or the empty string. -/
def HoneypotEmpty (form : ContactForm) : Prop :=
  form.website = none ∨ form.website = some ""

/-- The secret is configured: defined and not the empty string. -/
def SecretPresent (env : Env) : Prop :=
  ∃ k, env.secret = some k ∧ k ≠ ""

/-- A submission is accepted when nothing is in flight, the honeypot is empty, the secret
is configured and the three fields are filled in. -/
def SubmissionAccepted (env : Env) (st : AppState) (form : ContactForm) : Prop :=
  st.isSubmitting = false ∧ HoneypotEmpty form ∧ SecretPresent env ∧
    FieldFilled form.name ∧ FieldFilled form.email ∧ FieldFilled form.message

/-- The payload the handler builds from a form. -/
def payloadOf (env : Env) (form : ContactForm) : Payload :=
  { name := form.name.map jsTrim
    email := form.email.map jsTrim
    message := form.message.map jsTrim
    secret := env.secret }

/-- When a readable response counts as a success: the HTTP status is ok and the body
parses as JSON whose `status` field is the string "success". -/
def ReadableSuccess (env : Env) (r : Response) : Prop :=
  r.ok = true ∧ ∃ body v, r.text = .ok body ∧ env.jsonParse body = some v ∧
    v.getProp "status" = some (.str "success")

/-! ## Sample data -/

/-- A finite table of `JSON.parse`: what it returns on three response bodies; every other
text is taken as one that does not parse. -/
def sampleParse (s : String) : Option JsValue :=
  if s = "\x7b\"status\":\"success\"\x7d" then
    some (.obj [("status", .str "success")])
  else if s = "\x7b\"status\":\"error\",\"message\":\"Quota exceeded\"\x7d" then
    some (.obj [("status", .str "error"), ("message", .str "Quota exceeded")])
  else if s = "\x7b\"status\":\"error\",\"message\":\"\"\x7d" then
    some (.obj [("status", .str "error"), ("message", .str "")])
  else none

/-- An environment with a configured secret. -/
def sampleEnv : Env :=
  { secret := some "s3cret"
    jsonParse := sampleParse
    toPrimitiveError := { message := some "Cannot convert object to primitive value" } }

/-- An environment whose secret was left out of the build. -/
def noSecretEnv : Env :=
  { sampleEnv with secret := none }

/-- The state of a freshly loaded page. -/
def idleState : AppState :=
  { isIdleVisible := false, isAtBottom := false, formStatus := none, isSubmitting := false }

/-- A form filled in by a visitor. -/
def filledForm : ContactForm :=
  { name := some " Ada ", email := some "ada@example.org", message := some "Hello",
    website := some "" }

/-- A freshly loaded page with the filled form. -/
def sampleWorld : World :=
  { state := idleState, form := filledForm }

/-- The same page while an earlier submission is in flight. -/
def busyWorld : World :=
  { state := { idleState with isSubmitting := true }, form := filledForm }

/-- A page whose form has only blanks and a line break in the name field. -/
def blankNameWorld : World :=
  { state := idleState, form := { filledForm with name := some " \t\n" } }

/-- The response a cross-origin `no-cors` request resolves with. -/
def opaqueReply : Response :=
  { type := .opaqueResponse, ok := false, status := 0, text := .ok "" }

/-- A readable response reporting success. -/
def successReply : Response :=
  { type := .cors, ok := true, status := 200, text := .ok "\x7b\"status\":\"success\"\x7d" }

/-- A readable response with an error message of the server. -/
def quotaReply : Response :=
  { type := .cors, ok := true, status := 200,
    text := .ok "\x7b\"status\":\"error\",\"message\":\"Quota exceeded\"\x7d" }

/-- A readable response whose error message is the empty string. -/
def emptyMessageReply : Response :=
  { type := .cors, ok := true, status := 200,
    text := .ok "\x7b\"status\":\"error\",\"message\":\"\"\x7d" }

/-! ## The idle monitor and the floating control -/

/-- The delay of the idle timeout in milliseconds (line 24). -/
def idleDelay : Nat := 5000

/-- The component together with the timeouts of the browser: the state cells, the ref
that mirrors `isIdleVisible`, the variable `idleTimer` of the effect (a handle, `none`
while undefined), the pending timeouts as pairs of a handle and the milliseconds left
(the callback of each is `setIsIdleVisible(true)`, the only one the program registers),
and the handle `setTimeout` returns next. -/
structure Page where
  state : AppState
  isIdleVisibleRef : Bool
  idleTimer : Option Nat
  timers : List (Nat × Nat)
  nextHandle : Nat

/-- The call `clearTimeout(handle)`: the timeout with that handle is dropped; an undefined
handle or one that is no longer pending drops nothing. -/
def clearTimeout (handle : Option Nat) (timers : List (Nat × Nat)) : List (Nat × Nat) :=
  match handle with
  | none => timers
  | some h => timers.filter fun t => t.1 ≠ h

/-- The function `scheduleIdle` (lines 22-25). -/
def scheduleIdle (p : Page) : Page :=
  { p with
    timers := clearTimeout p.idleTimer p.timers ++ [(p.nextHandle, idleDelay)]
    idleTimer := some p.nextHandle
    nextHandle := p.nextHandle + 1 }

/-- The function `handleActivity` (lines 27-31). -/
def handleActivity (p : Page) : Page :=
  if !p.isIdleVisibleRef then scheduleIdle p else p

/-- The function `handleScroll` (lines 39-42), run on the measurements the window has
when the scroll event arrives. -/
def handleScroll (w : Viewport) (p : Page) : Page :=
  let p1 := handleActivity p
  { p1 with state := updateScrollState w p1.state }

/-- The passing of `ms` milliseconds: a timeout whose delay has run out fires at once and
sets `isIdleVisible` to true, the others have that much less left. -/
def elapse (ms : Nat) (p : Page) : Page :=
  { p with
    state :=
      if p.timers.any fun t => t.2 ≤ ms then { p.state with isIdleVisible := true }
      else p.state
    timers := (p.timers.filter fun t => ms < t.2).map fun t => (t.1, t.2 - ms) }

/-- The effect of lines 15-17, which runs after a render: the ref takes the value of
`isIdleVisible`. -/
def syncRef (p : Page) : Page :=
  { p with isIdleVisibleRef := p.state.isIdleVisible }

/-- What `handleScrollIndicator` does, in the order it does it. -/
inductive IndicatorEffect where
  | setIsIdleVisible (value : Bool)
  | scrollTo (top : Double) (behavior : String)

/-- The handler `handleScrollIndicator` (lines 61-69), on the state its closure sees and
the measurements of the window. -/
def handleScrollIndicator (st : AppState) (w : Viewport) : List IndicatorEffect :=
  .setIsIdleVisible false ::
    if st.isAtBottom then [.scrollTo (Double.ofNat 0) "smooth"]
    else [.scrollTo (Double.add w.scrollY w.innerHeight) "smooth"]

/-- True for a call of `window.scrollTo`. -/
def IndicatorEffect.isScrollTo : IndicatorEffect → Bool
  | .scrollTo _ _ => true
  | _ => false

/-- The change one effect of `handleScrollIndicator` makes to the component; the scroll
it asks for shows up later as scroll events. -/
def applyIndicatorEffect (p : Page) : IndicatorEffect → Page
  | .setIsIdleVisible value => { p with state := { p.state with isIdleVisible := value } }
  | .scrollTo _ _ => p

/-- A click on the floating control. -/
def clickIndicator (w : Viewport) (p : Page) : Page :=
  (handleScrollIndicator p.state w).foldl applyIndicatorEffect p

/-- What can happen to the page after it has loaded: time passes, one of the four
activity signals arrives, the ref effect runs, the floating control is clicked. -/
inductive PageEvent where
  | elapse (ms : Nat)
  | mousemove
  | keydown
  | touchstart
  | scroll (w : Viewport)
  | syncRef
  | click (w : Viewport)

/-- True for the four activity signals. -/
def PageEvent.isActivity : PageEvent → Bool
  | .mousemove => true
  | .keydown => true
  | .touchstart => true
  | .scroll _ => true
  | _ => false

/-- True for a click on the floating control. -/
def PageEvent.isClick : PageEvent → Bool
  | .click _ => true
  | _ => false

/-- The listener or callback each event runs (lines 47-50 for the signals). -/
def stepPage (p : Page) : PageEvent → Page
  | .elapse ms => elapse ms p
  | .mousemove => handleActivity p
  | .keydown => handleActivity p
  | .touchstart => handleActivity p
  | .scroll w => handleScroll w p
  | .syncRef => syncRef p
  | .click w => clickIndicator w p

/-- The page after a sequence of events. -/
def runPage (p : Page) (trace : List PageEvent) : Page :=
  trace.foldl stepPage p

/-- The page right after load: the initial state cells, then the body of the effect of
lines 19-59, `scheduleIdle()` and `updateScrollState()`. -/
def mount (w : Viewport) : Page :=
  let p := scheduleIdle
    { state :=
        { isIdleVisible := false, isAtBottom := false, formStatus := none
          isSubmitting := false }
      isIdleVisibleRef := false
      idleTimer := none
      timers := []
      nextHandle := 1 }
  { p with state := updateScrollState w p.state }

/-- The time since the last activity signal after one more event: time adds to it, a
signal starts it again from zero. -/
def quietStep (q : Nat) : PageEvent → Nat
  | .elapse ms => q + ms
  | .mousemove => 0
  | .keydown => 0
  | .touchstart => 0
  | .scroll _ => 0
  | .syncRef => q
  | .click _ => q

/-- The milliseconds since the last activity signal of a sequence of events, or since
load when it has none. -/
def quietSince (trace : List PageEvent) : Nat :=
  trace.foldl quietStep 0

/-- Some interval of at least 5000 ms without an activity signal, counted from load or
from a signal, has fully elapsed by the end of the sequence: at some moment of it the
time since the last signal was 5000 ms or more. -/
def IdleGapElapsed (trace : List PageEvent) : Prop :=
  ∃ pre, pre <+: trace ∧ 5000 ≤ quietSince pre

/-- The monitor is waiting, `q` ms after the last signal: the control is hidden, the ref
says so, and the one pending timeout is the one `idleTimer` names, with `5000 - q` ms
left. -/
def Monitoring (p : Page) (q : Nat) : Prop :=
  p.state.isIdleVisible = false ∧ p.isIdleVisibleRef = false ∧ q < 5000 ∧
    ∃ h, p.idleTimer = some h ∧ p.timers = [(h, 5000 - q)]

/-- A window whose document is as tall as the viewport, so that nothing can scroll. -/
def shortWindow : Viewport :=
  { innerHeight := Double.ofNat 800, scrollY := Double.ofNat 0,
    scrollHeight := Double.ofNat 800 }

/-- A window at the top of a long document. -/
def tallWindow : Viewport :=
  { innerHeight := Double.ofNat 800, scrollY := Double.ofNat 0,
    scrollHeight := Double.ofNat 4000 }

/-- A window scrolled by the double next below 1 (the literal 0.9999999999999999, which
is 1 - 2^-53) in a document of height 805. -/
def roundingWindow : Viewport :=
  { innerHeight := Double.ofNat 800, scrollY := .fin false (2 ^ 1074 - 2 ^ 1021),
    scrollHeight := Double.ofNat 805 }

/-- The page of the short window once the control has appeared: 5000 ms after load, the
ref effect has run. -/
def idlePage : Page :=
  runPage (mount shortWindow) [.elapse 5000, .syncRef]

/-- A visit with signals, none of them 5000 ms after the one before, then a pause. -/
def sampleVisit : List PageEvent :=
  [.elapse 1200, .mousemove, .elapse 4999, .scroll tallWindow, .elapse 3000, .keydown,
    .elapse 2000, .syncRef, .elapse 3000, .touchstart]

/-! ## Auxiliary facts -/

theorem strTruthy_eq_true_iff (v : Option String) :
    strTruthy v = true ↔ ∃ s, v = some s ∧ s ≠ "" := by
  cases v with
  | none => simp [strTruthy]
  | some s => simp [strTruthy]

theorem strTruthy_eq_false_iff (v : Option String) :
    strTruthy v = false ↔ v = none ∨ v = some "" := by
  cases v with
  | none => simp [strTruthy]
  | some s => simp [strTruthy]

theorem strTruthy_trim_iff (v : Option String) :
    strTruthy (v.map jsTrim) = true ↔ FieldFilled v := by
  cases v with
  | none => simp [strTruthy, FieldFilled]
  | some s => simp [strTruthy, FieldFilled]

theorem honeypotEmpty_iff (form : ContactForm) :
    HoneypotEmpty form ↔ strTruthy form.website = false :=
  (strTruthy_eq_false_iff _).symm

theorem secretPresent_iff (env : Env) : SecretPresent env ↔ strTruthy env.secret = true :=
  (strTruthy_eq_true_iff _).symm

/-- The effects of an accepted submission: enter Submitting, clear the status, run the
`try` block, run the `catch` clause after a throw, leave Submitting. -/
theorem handleContactSubmit_accepted (env : Env) (st : AppState) (form : ContactForm)
    (net : FetchOutcome) (h : SubmissionAccepted env st form) :
    handleContactSubmit env st form net =
      .preventDefault :: ([.setIsSubmitting true, .setFormStatus none] ++
        (tryBlock env (payloadOf env form) net).1 ++
        (match (tryBlock env (payloadOf env form) net).2 with
         | .ok _ => []
         | .error error => catchBlock error) ++
        [.setIsSubmitting false]) := by
  obtain ⟨h1, h2, h3, h4, h5, h6⟩ := h
  rw [honeypotEmpty_iff] at h2
  rw [secretPresent_iff] at h3
  rw [← strTruthy_trim_iff] at h4 h5 h6
  simp [handleContactSubmit, h1, h2, h3, h4, h5, h6, payloadOf]

/-- The effects of a submission that is not accepted hold no `fetch` and no
`setIsSubmitting`. -/
theorem handleContactSubmit_rejected (env : Env) (st : AppState) (form : ContactForm)
    (net : FetchOutcome) (h : ¬ SubmissionAccepted env st form) :
    handleContactSubmit env st form net = [.preventDefault] ∨
      ∃ m, handleContactSubmit env st form net =
        [.preventDefault, .setFormStatus (some { type := .error, message := m })] := by
  unfold SubmissionAccepted at h
  rw [honeypotEmpty_iff, secretPresent_iff, ← strTruthy_trim_iff, ← strTruthy_trim_iff,
    ← strTruthy_trim_iff] at h
  unfold handleContactSubmit
  by_cases h1 : st.isSubmitting = true
  · simp [h1]
  · by_cases h2 : strTruthy form.website = true
    · simp [h1, h2]
    · by_cases h3 : strTruthy env.secret = true
      · right
        have h4 : ¬ (strTruthy (form.name.map jsTrim) = true ∧
            strTruthy (form.email.map jsTrim) = true ∧
            strTruthy (form.message.map jsTrim) = true) := by
          intro h4
          exact h ⟨by simpa using h1, by simpa using h2, h3, h4⟩
        refine ⟨"Please fill in all fields before sending.", ?_⟩
        simp only [Bool.not_eq_true] at h1 h2
        simp only [h1, h2, h3]
        simp only [not_and_or, Bool.not_eq_true] at h4
        rcases h4 with h4 | h4 | h4 <;> simp [h4]
      · right
        refine ⟨"Missing secret key configuration.", ?_⟩
        simp [h1, h2, h3]

/-- The `try` block calls `fetch` exactly once. -/
theorem tryBlock_networkCalls (env : Env) (payload : Payload) (net : FetchOutcome) :
    networkCalls (tryBlock env payload net).1 = 1 := by
  unfold tryBlock
  cases net with
  | rejected error => simp [networkCalls, Effect.isFetch]
  | resolved response =>
    cases htext : response.text <;> simp only [htext] <;> split_ifs <;>
      simp [networkCalls, Effect.isFetch]

theorem networkCalls_accepted (env : Env) (st : AppState) (form : ContactForm)
    (net : FetchOutcome) (h : SubmissionAccepted env st form) :
    networkCalls (handleContactSubmit env st form net) = 1 := by
  have ht := tryBlock_networkCalls env (payloadOf env form) net
  rw [handleContactSubmit_accepted env st form net h]
  unfold networkCalls at ht ⊢
  rw [List.countP_cons, List.countP_append, List.countP_append, List.countP_append, ht]
  cases (tryBlock env (payloadOf env form) net).2 <;> simp [Effect.isFetch, catchBlock]

theorem networkCalls_rejected (env : Env) (st : AppState) (form : ContactForm)
    (net : FetchOutcome) (h : ¬ SubmissionAccepted env st form) :
    networkCalls (handleContactSubmit env st form net) = 0 := by
  rcases handleContactSubmit_rejected env st form net h with h | ⟨m, h⟩ <;>
    simp [h, networkCalls, Effect.isFetch]

theorem strictEqStr_eq_true_iff (x : Option JsValue) (s : String) :
    strictEqStr x s = true ↔ x = some (.str s) := by
  unfold strictEqStr
  split <;> simp_all

theorem tryBlock_rejected (env : Env) (payload : Payload) (error : JsError) :
    tryBlock env payload (.rejected error) =
      ([.fetch (contactRequest payload)], .error error) := rfl

theorem tryBlock_of_opaqueReply (env : Env) (payload : Payload) (r : Response)
    (hr : r.type = .opaqueResponse) :
    tryBlock env payload (.resolved r) =
      ([.fetch (contactRequest payload), .formReset, .setFormStatus (some sentStatus)],
        .ok ()) := by
  simp [tryBlock, hr]

theorem tryBlock_readable_success (env : Env) (payload : Payload) (r : Response)
    (hr : r.type ≠ .opaqueResponse) (h : ReadableSuccess env r) :
    tryBlock env payload (.resolved r) =
      ([.fetch (contactRequest payload), .readText, .formReset,
        .setFormStatus (some sentStatus)], .ok ()) := by
  obtain ⟨hok, body, v, htext, hparse, hstatus⟩ := h
  rw [← strictEqStr_eq_true_iff] at hstatus
  simp [tryBlock, hr, hok, htext, hparse, hstatus]

theorem tryBlock_readable_failure (env : Env) (payload : Payload) (r : Response)
    (hr : r.type ≠ .opaqueResponse) (h : ¬ ReadableSuccess env r) :
    ∃ error, tryBlock env payload (.resolved r) =
      ([.fetch (contactRequest payload), .readText], .error error) := by
  unfold tryBlock
  simp only [hr, if_false]
  cases htext : r.text with
  | error e => exact ⟨e, rfl⟩
  | ok body =>
    by_cases hok : r.ok = true
    · by_cases hst : strictEqStr (((env.jsonParse body).getD .null).getProp "status")
          "success" = true
      · exfalso
        apply h
        have hst2 := (strictEqStr_eq_true_iff _ _).mp hst
        cases hparse : env.jsonParse body with
        | none => simp [hparse, JsValue.getProp] at hst2
        | some v =>
          rw [hparse] at hst2
          exact ⟨hok, body, v, htext, hparse, hst2⟩
      · refine ⟨newError env (orFallback
          (((env.jsonParse body).getD .null).getProp "message") "Failed to send message."), ?_⟩
        simp [hok, hst]
    · refine ⟨newError env (orFallback (((env.jsonParse body).getD .null).getProp "message")
        ("Request failed (" ++ toString r.status ++ ").")), ?_⟩
      simp [hok]

/-- The world after an accepted submission whose `try` block ends normally. -/
theorem submit_of_ok (env : Env) (w : World) (net : FetchOutcome) (effects : List Effect)
    (hacc : SubmissionAccepted env w.state w.form)
    (htry : tryBlock env (payloadOf env w.form) net = (effects, .ok ())) :
    handleContactSubmit env w.state w.form net =
      .preventDefault :: .setIsSubmitting true :: .setFormStatus none ::
        (effects ++ [.setIsSubmitting false]) := by
  rw [handleContactSubmit_accepted env w.state w.form net hacc, htry]
  simp

/-- The world after an accepted submission whose `try` block throws. -/
theorem submit_of_error (env : Env) (w : World) (net : FetchOutcome) (effects : List Effect)
    (error : JsError) (hacc : SubmissionAccepted env w.state w.form)
    (htry : tryBlock env (payloadOf env w.form) net = (effects, .error error)) :
    handleContactSubmit env w.state w.form net =
      .preventDefault :: .setIsSubmitting true :: .setFormStatus none ::
        (effects ++ catchBlock error ++ [.setIsSubmitting false]) := by
  rw [handleContactSubmit_accepted env w.state w.form net hacc, htry]
  simp

/-- The `catch` clause always displays an error. -/
theorem catchBlock_eq (error : JsError) :
    ∃ m, catchBlock error = [.setFormStatus (some { type := .error, message := m })] :=
  ⟨_, rfl⟩

/-- A run of the handler that sets `isSubmitting` to true is an accepted submission. -/
theorem accepted_of_enters_submitting (env : Env) (st : AppState) (form : ContactForm)
    (net : FetchOutcome)
    (h : Effect.setIsSubmitting true ∈ handleContactSubmit env st form net) :
    SubmissionAccepted env st form := by
  by_contra hn
  rcases handleContactSubmit_rejected env st form net hn with h1 | ⟨m, h1⟩ <;>
    simp [h1] at h

/-- The two ways the `try` block of an accepted submission ends: normally, after a form
reset and the success status, or by a throw before either. -/
theorem tryBlock_shape (env : Env) (payload : Payload) (net : FetchOutcome) :
    (∃ pre, tryBlock env payload net =
        (pre ++ [.formReset, .setFormStatus (some sentStatus)], .ok ()) ∧
        (pre = [.fetch (contactRequest payload)] ∨
          pre = [.fetch (contactRequest payload), .readText])) ∨
    (∃ pre error, tryBlock env payload net = (pre, .error error) ∧
        (pre = [.fetch (contactRequest payload)] ∨
          pre = [.fetch (contactRequest payload), .readText])) := by
  cases net with
  | rejected error => exact Or.inr ⟨_, error, rfl, Or.inl rfl⟩
  | resolved r =>
    by_cases hr : r.type = .opaqueResponse
    · exact Or.inl ⟨_, tryBlock_of_opaqueReply env payload r hr, Or.inl rfl⟩
    · by_cases hs : ReadableSuccess env r
      · exact Or.inl ⟨_, tryBlock_readable_success env payload r hr hs, Or.inr rfl⟩
      · obtain ⟨error, he⟩ := tryBlock_readable_failure env payload r hr hs
        exact Or.inr ⟨_, error, he, Or.inr rfl⟩

/-- The sample page with the sample environment is an accepted submission. -/
theorem sampleWorld_accepted :
    SubmissionAccepted sampleEnv sampleWorld.state sampleWorld.form :=
  ⟨rfl, Or.inr rfl, ⟨"s3cret", rfl, by decide⟩, ⟨" Ada ", rfl, by decide⟩,
    ⟨"ada@example.org", rfl, by decide⟩, ⟨"Hello", rfl, by decide⟩⟩

/-! ## Theorems of the specification -/

/-- C1: for every state, form, secret configuration and network outcome,
`handleContactSubmit` issues exactly one network request if and only if `isSubmitting` is
false, the honeypot is empty, the secret is configured and each of name, email and message
is non-empty after trimming; in every other case it issues none. -/
theorem handleContactSubmit_one_request_iff (env : Env) (st : AppState) (form : ContactForm)
    (net : FetchOutcome) :
    (networkCalls (handleContactSubmit env st form net) = 1 ↔
      (st.isSubmitting = false ∧ HoneypotEmpty form ∧ SecretPresent env ∧
        FieldFilled form.name ∧ FieldFilled form.email ∧ FieldFilled form.message)) ∧
    (¬ (st.isSubmitting = false ∧ HoneypotEmpty form ∧ SecretPresent env ∧
        FieldFilled form.name ∧ FieldFilled form.email ∧ FieldFilled form.message) →
      networkCalls (handleContactSubmit env st form net) = 0) := by
  refine ⟨⟨fun h => ?_, fun h => networkCalls_accepted env st form net h⟩,
    fun h => networkCalls_rejected env st form net h⟩
  by_contra hn
  have h0 := networkCalls_rejected env st form net hn
  omega

/-- C2: for every viewport height, scroll offset and document height, `updateScrollState`
sets `isAtBottom` to true if and only if the viewport height plus the scroll offset is at
least the document height minus 4, the sum, the difference and the comparison being those
of the Numbers of the program; the other state cells keep their values. -/
theorem updateScrollState_atBottom_iff (w : Viewport) (st : AppState) :
    ((updateScrollState w st).isAtBottom = true ↔
      Double.ge (Double.add w.innerHeight w.scrollY)
        (Double.sub w.scrollHeight (Double.ofNat 4)) = true) ∧
    (updateScrollState w st).isIdleVisible = st.isIdleVisible ∧
    (updateScrollState w st).formStatus = st.formStatus ∧
    (updateScrollState w st).isSubmitting = st.isSubmitting := by
  simp [updateScrollState]

/-- C3: a submission made while nothing is in flight, with an empty honeypot and a
configured secret, in which name, email or message is empty after trimming (blank or not
there), ends with the status Error "Please fill in all fields before sending.", never sets
`isSubmitting` to true, leaves it false and makes no network call. -/
theorem handleContactSubmit_empty_field (env : Env) (w : World) (net : FetchOutcome)
    (hidle : w.state.isSubmitting = false) (hpot : HoneypotEmpty w.form)
    (hsecret : SecretPresent env)
    (hempty : ¬ FieldFilled w.form.name ∨ ¬ FieldFilled w.form.email ∨
      ¬ FieldFilled w.form.message) :
    (submit env w net).state.formStatus =
        some { type := .error, message := "Please fill in all fields before sending." } ∧
      (submit env w net).state.isSubmitting = false ∧
      Effect.setIsSubmitting true ∉ handleContactSubmit env w.state w.form net ∧
      networkCalls (handleContactSubmit env w.state w.form net) = 0 := by
  rw [honeypotEmpty_iff] at hpot
  rw [secretPresent_iff] at hsecret
  rw [← strTruthy_trim_iff, ← strTruthy_trim_iff, ← strTruthy_trim_iff] at hempty
  simp only [Bool.not_eq_true] at hempty
  have heff : handleContactSubmit env w.state w.form net =
      [.preventDefault, .setFormStatus (some
        { type := .error, message := "Please fill in all fields before sending." })] := by
    unfold handleContactSubmit
    rcases hempty with h | h | h <;> simp [hidle, hpot, hsecret, h]
  simp [submit, heff, runEffects, applyEffect, networkCalls, Effect.isFetch, hidle]

/-- C4: if `isSubmitting` is already true or the honeypot field is non-empty, the handler
does nothing beyond `preventDefault`: the status, `isSubmitting` and the form fields are
exactly as before and no network call is made. -/
theorem handleContactSubmit_silent_noop (env : Env) (w : World) (net : FetchOutcome)
    (h : w.state.isSubmitting = true ∨ ∃ s, w.form.website = some s ∧ s ≠ "") :
    handleContactSubmit env w.state w.form net = [.preventDefault] ∧
      submit env w net = w ∧
      networkCalls (handleContactSubmit env w.state w.form net) = 0 := by
  have heff : handleContactSubmit env w.state w.form net = [.preventDefault] := by
    unfold handleContactSubmit
    rcases h with h | h
    · simp [h]
    · rw [← strTruthy_eq_true_iff] at h
      simp [h]
  simp [submit, heff, runEffects, applyEffect, networkCalls, Effect.isFetch]

/-- C5: a submission made while nothing is in flight and with an empty honeypot, when the
secret is not configured (undefined or empty), ends with the status
Error "Missing secret key configuration." whatever the three fields hold, leaves
`isSubmitting` false and makes no network call. -/
theorem handleContactSubmit_missing_secret (env : Env) (w : World) (net : FetchOutcome)
    (hidle : w.state.isSubmitting = false) (hpot : HoneypotEmpty w.form)
    (hsecret : env.secret = none ∨ env.secret = some "") :
    (submit env w net).state.formStatus =
        some { type := .error, message := "Missing secret key configuration." } ∧
      (submit env w net).state.isSubmitting = false ∧
      Effect.setIsSubmitting true ∉ handleContactSubmit env w.state w.form net ∧
      networkCalls (handleContactSubmit env w.state w.form net) = 0 := by
  rw [honeypotEmpty_iff] at hpot
  rw [← strTruthy_eq_false_iff] at hsecret
  have heff : handleContactSubmit env w.state w.form net =
      [.preventDefault, .setFormStatus (some
        { type := .error, message := "Missing secret key configuration." })] := by
    unfold handleContactSubmit
    simp [hidle, hpot, hsecret]
  simp [submit, heff, runEffects, applyEffect, networkCalls, Effect.isFetch, hidle]

/-- C6: an accepted submission whose response is of type "opaque" resets the form fields
and ends with the status Success "Message sent! I will get back to you soon."; the body is
never read, and the effects are the same for every such response, whatever its `ok`,
`status` and body. -/
theorem handleContactSubmit_opaque_success (env : Env) (w : World) (r : Response)
    (hacc : SubmissionAccepted env w.state w.form) (hr : r.type = .opaqueResponse) :
    (submit env w (.resolved r)).form = w.form.reset ∧
      (submit env w (.resolved r)).state.formStatus =
        some { type := .success, message := "Message sent! I will get back to you soon." } ∧
      Effect.readText ∉ handleContactSubmit env w.state w.form (.resolved r) ∧
      (∀ r2 : Response, r2.type = .opaqueResponse →
        handleContactSubmit env w.state w.form (.resolved r2) =
          handleContactSubmit env w.state w.form (.resolved r)) := by
  have heff := fun (r2 : Response) (h2 : r2.type = .opaqueResponse) =>
    submit_of_ok env w (.resolved r2) _ hacc (tryBlock_of_opaqueReply env (payloadOf env w.form) r2 h2)
  refine ⟨?_, ?_, ?_, fun r2 h2 => by rw [heff r2 h2, heff r hr]⟩ <;>
    simp [submit, heff r hr, runEffects, applyEffect, sentStatus]

/-- C7: an accepted submission whose response is readable (not of type "opaque") ends with
the status Success "Message sent! I will get back to you soon." and the form reset if and
only if the HTTP status is ok and the body parses as JSON whose `status` field is
"success"; in every other case (status not ok, another `status` field, a body that cannot
be read or parsed) it ends with an Error status and the form fields are not reset. -/
theorem handleContactSubmit_readable (env : Env) (w : World) (r : Response)
    (hacc : SubmissionAccepted env w.state w.form) (hr : r.type ≠ .opaqueResponse) :
    (((submit env w (.resolved r)).state.formStatus =
          some { type := .success, message := "Message sent! I will get back to you soon." } ∧
        (submit env w (.resolved r)).form = w.form.reset) ↔
      (r.ok = true ∧ ∃ body v, r.text = .ok body ∧ env.jsonParse body = some v ∧
        v.getProp "status" = some (.str "success"))) ∧
    (¬ (r.ok = true ∧ ∃ body v, r.text = .ok body ∧ env.jsonParse body = some v ∧
        v.getProp "status" = some (.str "success")) →
      (∃ m, (submit env w (.resolved r)).state.formStatus =
          some { type := .error, message := m }) ∧
        (submit env w (.resolved r)).form = w.form ∧
        Effect.formReset ∉ handleContactSubmit env w.state w.form (.resolved r)) := by
  have hfail : ¬ ReadableSuccess env r →
      (∃ m, (submit env w (.resolved r)).state.formStatus =
          some { type := .error, message := m }) ∧
        (submit env w (.resolved r)).form = w.form ∧
        Effect.formReset ∉ handleContactSubmit env w.state w.form (.resolved r) := by
    intro hn
    obtain ⟨error, he⟩ := tryBlock_readable_failure env (payloadOf env w.form) r hr hn
    have heff := submit_of_error env w (.resolved r) _ error hacc he
    obtain ⟨m, hm⟩ := catchBlock_eq error
    rw [hm] at heff
    refine ⟨⟨m, ?_⟩, ?_, ?_⟩ <;> simp [submit, heff, runEffects, applyEffect]
  refine ⟨⟨fun h => ?_, fun h => ?_⟩, hfail⟩
  · by_contra hn
    obtain ⟨⟨m, hm⟩, _, _⟩ := hfail hn
    rw [hm] at h
    simp at h
  · have heff := submit_of_ok env w (.resolved r) _ hacc
      (tryBlock_readable_success env (payloadOf env w.form) r hr h)
    constructor <;> simp [submit, heff, runEffects, applyEffect, sentStatus]

/-- C8 (amended): for every non-empty string X, an accepted submission whose readable
response has an ok HTTP status and a JSON body with `status` "error" and `message` X ends
with the status Error X. -/
theorem handleContactSubmit_server_message (env : Env) (w : World) (r : Response)
    (body : String) (v : JsValue) (X : String)
    (hacc : SubmissionAccepted env w.state w.form) (hr : r.type ≠ .opaqueResponse)
    (hok : r.ok = true) (htext : r.text = .ok body) (hparse : env.jsonParse body = some v)
    (hstatus : v.getProp "status" = some (.str "error"))
    (hmessage : v.getProp "message" = some (.str X)) (hX : X ≠ "") :
    (submit env w (.resolved r)).state.formStatus = some { type := .error, message := X } := by
  have htry : tryBlock env (payloadOf env w.form) (.resolved r) =
      ([.fetch (contactRequest (payloadOf env w.form)), .readText],
        .error { message := some X }) := by
    simp [tryBlock, hr, hok, htext, hparse, hstatus, hmessage, strictEqStr, orFallback,
      JsValue.truthy, hX, newError, JsValue.toStr]
  have heff := submit_of_error env w (.resolved r) _ _ hacc htry
  simp [submit, heff, runEffects, applyEffect, catchBlock, strTruthy, hX]

/-- C9: an accepted submission whose request throws ends with the status Error m when the
exception carries a non-empty message m, and with the status
Error "Something went wrong. Please try again later." when it carries none (absent or
empty); in both cases the form fields are not reset. -/
theorem handleContactSubmit_exception (env : Env) (w : World) (error : JsError)
    (hacc : SubmissionAccepted env w.state w.form) :
    (∀ m, error.message = some m → m ≠ "" →
        (submit env w (.rejected error)).state.formStatus =
          some { type := .error, message := m }) ∧
      (error.message = none ∨ error.message = some "" →
        (submit env w (.rejected error)).state.formStatus =
          some { type := .error, message := "Something went wrong. Please try again later." }) ∧
      (submit env w (.rejected error)).form = w.form ∧
      Effect.formReset ∉ handleContactSubmit env w.state w.form (.rejected error) := by
  have heff := submit_of_error env w (.rejected error) _ error hacc
    (tryBlock_rejected env (payloadOf env w.form) error)
  refine ⟨fun m hm hne => ?_, fun h => ?_, ?_, ?_⟩
  · simp [submit, heff, runEffects, applyEffect, catchBlock, strTruthy, hm, hne]
  · rcases h with h | h <;>
      simp [submit, heff, runEffects, applyEffect, catchBlock, strTruthy, h]
  · simp [submit, heff, runEffects, applyEffect, catchBlock]
  · simp [heff, catchBlock]

/-- C10: for every run of the handler that sets `isSubmitting` to true and every way the
request settles, `isSubmitting` is false when the handler completes and the status is then
a Success or an Error, never the cleared one. -/
theorem handleContactSubmit_leaves_submitting (env : Env) (w : World) (net : FetchOutcome)
    (h : Effect.setIsSubmitting true ∈ handleContactSubmit env w.state w.form net) :
    (submit env w net).state.isSubmitting = false ∧
      ((∃ m, (submit env w net).state.formStatus = some { type := .success, message := m }) ∨
        (∃ m, (submit env w net).state.formStatus = some { type := .error, message := m })) := by
  have hacc := accepted_of_enters_submitting env w.state w.form net h
  rcases tryBlock_shape env (payloadOf env w.form) net with
    ⟨pre, htry, hpre⟩ | ⟨pre, error, htry, hpre⟩
  · have heff := submit_of_ok env w net _ hacc htry
    refine ⟨?_, Or.inl ⟨sentStatus.message, ?_⟩⟩ <;>
      rcases hpre with hpre | hpre <;>
      simp [submit, heff, hpre, runEffects, applyEffect, sentStatus]
  · have heff := submit_of_error env w net _ error hacc htry
    obtain ⟨m, hm⟩ := catchBlock_eq error
    rw [hm] at heff
    refine ⟨?_, Or.inr ⟨m, ?_⟩⟩ <;>
      rcases hpre with hpre | hpre <;>
      simp [submit, heff, hpre, runEffects, applyEffect]

/-! ## The theorems at sample inputs -/

/-- A name of blanks only: the error is displayed and nothing is sent. -/
theorem handleContactSubmit_empty_field_witness :
    ¬ FieldFilled blankNameWorld.form.name ∧
      (submit sampleEnv blankNameWorld (.resolved opaqueReply)).state.formStatus =
        some { type := .error, message := "Please fill in all fields before sending." } ∧
      (submit sampleEnv blankNameWorld (.resolved opaqueReply)).state.isSubmitting = false ∧
      Effect.setIsSubmitting true ∉
        handleContactSubmit sampleEnv blankNameWorld.state blankNameWorld.form
          (.resolved opaqueReply) ∧
      networkCalls (handleContactSubmit sampleEnv blankNameWorld.state blankNameWorld.form
        (.resolved opaqueReply)) = 0 :=
  have hblank : ¬ FieldFilled blankNameWorld.form.name := by
    rintro ⟨s, hs, ht⟩
    cases hs
    exact ht (by decide)
  ⟨hblank, handleContactSubmit_empty_field sampleEnv blankNameWorld (.resolved opaqueReply)
    rfl (Or.inr rfl) ⟨"s3cret", rfl, by decide⟩ (Or.inl hblank)⟩

/-- A second submit while the first is in flight changes nothing. -/
theorem handleContactSubmit_silent_noop_witness :
    busyWorld.state.isSubmitting = true ∧
      handleContactSubmit sampleEnv busyWorld.state busyWorld.form (.resolved opaqueReply) =
        [.preventDefault] ∧
      submit sampleEnv busyWorld (.resolved opaqueReply) = busyWorld ∧
      networkCalls (handleContactSubmit sampleEnv busyWorld.state busyWorld.form
        (.resolved opaqueReply)) = 0 :=
  ⟨rfl, handleContactSubmit_silent_noop sampleEnv busyWorld (.resolved opaqueReply)
    (Or.inl rfl)⟩

/-- A build without the secret displays the configuration error. -/
theorem handleContactSubmit_missing_secret_witness :
    (submit noSecretEnv sampleWorld (.resolved opaqueReply)).state.formStatus =
        some { type := .error, message := "Missing secret key configuration." } ∧
      (submit noSecretEnv sampleWorld (.resolved opaqueReply)).state.isSubmitting = false ∧
      Effect.setIsSubmitting true ∉
        handleContactSubmit noSecretEnv sampleWorld.state sampleWorld.form
          (.resolved opaqueReply) ∧
      networkCalls (handleContactSubmit noSecretEnv sampleWorld.state sampleWorld.form
        (.resolved opaqueReply)) = 0 :=
  handleContactSubmit_missing_secret noSecretEnv sampleWorld (.resolved opaqueReply)
    rfl (Or.inr rfl) (Or.inl rfl)

/-- An opaque reply clears the form and displays the success message. -/
theorem handleContactSubmit_opaque_success_witness :
    (submit sampleEnv sampleWorld (.resolved opaqueReply)).form =
        { name := some "", email := some "", message := some "", website := some "" } ∧
      (submit sampleEnv sampleWorld (.resolved opaqueReply)).state.formStatus =
        some { type := .success, message := "Message sent! I will get back to you soon." } :=
  have h := handleContactSubmit_opaque_success sampleEnv sampleWorld opaqueReply
    sampleWorld_accepted rfl
  ⟨h.1, h.2.1⟩

/-- A readable reply with status "success" clears the form and displays the success
message. -/
theorem handleContactSubmit_readable_witness :
    (submit sampleEnv sampleWorld (.resolved successReply)).state.formStatus =
        some { type := .success, message := "Message sent! I will get back to you soon." } ∧
      (submit sampleEnv sampleWorld (.resolved successReply)).form = sampleWorld.form.reset :=
  (handleContactSubmit_readable sampleEnv sampleWorld successReply sampleWorld_accepted
    (by decide)).1.mpr
    ⟨rfl, "\x7b\"status\":\"success\"\x7d", .obj [("status", .str "success")], rfl, rfl, rfl⟩

/-- The message of the server is displayed. -/
theorem handleContactSubmit_server_message_witness :
    (submit sampleEnv sampleWorld (.resolved quotaReply)).state.formStatus =
      some { type := .error, message := "Quota exceeded" } :=
  handleContactSubmit_server_message sampleEnv sampleWorld quotaReply
    "\x7b\"status\":\"error\",\"message\":\"Quota exceeded\"\x7d"
    (.obj [("status", .str "error"), ("message", .str "Quota exceeded")]) "Quota exceeded"
    sampleWorld_accepted (by decide) rfl rfl rfl rfl rfl (by decide)

/-- C8 as stated fails for the empty string: with an ok HTTP status and the body
`{"status":"error","message":""}` the status displayed is Error "Failed to send message.",
not the Error with the empty message of the server. -/
theorem handleContactSubmit_server_message_counterexample :
    SubmissionAccepted sampleEnv sampleWorld.state sampleWorld.form ∧
      emptyMessageReply.type ≠ .opaqueResponse ∧ emptyMessageReply.ok = true ∧
      emptyMessageReply.text = .ok "\x7b\"status\":\"error\",\"message\":\"\"\x7d" ∧
      (∃ v, sampleEnv.jsonParse "\x7b\"status\":\"error\",\"message\":\"\"\x7d" = some v ∧
        v.getProp "status" = some (.str "error") ∧ v.getProp "message" = some (.str "")) ∧
      (submit sampleEnv sampleWorld (.resolved emptyMessageReply)).state.formStatus =
        some { type := .error, message := "Failed to send message." } ∧
      (submit sampleEnv sampleWorld (.resolved emptyMessageReply)).state.formStatus ≠
        some { type := .error, message := "" } :=
  ⟨sampleWorld_accepted, by decide, rfl, rfl, ⟨_, rfl, rfl, rfl⟩, by decide, by decide⟩

/-- A rejected request displays the message of the exception. -/
theorem handleContactSubmit_exception_witness :
    (submit sampleEnv sampleWorld (.rejected { message := some "Failed to fetch" })
        ).state.formStatus = some { type := .error, message := "Failed to fetch" } ∧
      (submit sampleEnv sampleWorld (.rejected { message := some "Failed to fetch" })).form =
        sampleWorld.form :=
  have h := handleContactSubmit_exception sampleEnv sampleWorld
    { message := some "Failed to fetch" } sampleWorld_accepted
  ⟨h.1 "Failed to fetch" rfl (by decide), h.2.2.1⟩

/-- A rejected request leaves the page out of the Submitting state. -/
theorem handleContactSubmit_leaves_submitting_witness :
    Effect.setIsSubmitting true ∈
        handleContactSubmit sampleEnv sampleWorld.state sampleWorld.form
          (.rejected { message := none }) ∧
      (submit sampleEnv sampleWorld (.rejected { message := none })).state.isSubmitting =
        false :=
  have hin : Effect.setIsSubmitting true ∈
      handleContactSubmit sampleEnv sampleWorld.state sampleWorld.form
        (.rejected { message := none }) := by decide
  ⟨hin, (handleContactSubmit_leaves_submitting sampleEnv sampleWorld
    (.rejected { message := none }) hin).1⟩

/-! ## Auxiliary facts on the idle monitor -/

theorem runPage_append (p : Page) (t1 t2 : List PageEvent) :
    runPage p (t1 ++ t2) = runPage (runPage p t1) t2 := by
  simp [runPage]

theorem runPage_concat (p : Page) (trace : List PageEvent) (e : PageEvent) :
    runPage p (trace ++ [e]) = stepPage (runPage p trace) e := by
  simp [runPage]

theorem quietSince_concat (trace : List PageEvent) (e : PageEvent) :
    quietSince (trace ++ [e]) = quietStep (quietSince trace) e := by
  simp [quietSince]

theorem idleGapElapsed_concat (trace : List PageEvent) (e : PageEvent) :
    IdleGapElapsed (trace ++ [e]) ↔
      IdleGapElapsed trace ∨ 5000 ≤ quietSince (trace ++ [e]) := by
  unfold IdleGapElapsed
  constructor
  · rintro ⟨pre, hpre, hq⟩
    rcases List.prefix_concat_iff.mp hpre with h | h
    · exact Or.inr (h ▸ hq)
    · exact Or.inl ⟨pre, h, hq⟩
  · rintro (⟨pre, hpre, hq⟩ | hq)
    · exact ⟨pre, hpre.trans (List.prefix_append _ _), hq⟩
    · exact ⟨_, List.prefix_refl _, hq⟩

/-- No event but a click hides the control again. -/
theorem stepPage_keeps_visible (p : Page) (e : PageEvent) (he : e.isClick = false)
    (hv : p.state.isIdleVisible = true) : (stepPage p e).state.isIdleVisible = true := by
  cases e with
  | elapse ms =>
    simp only [stepPage, elapse]
    split <;> simp [hv]
  | mousemove => simp only [stepPage, handleActivity, scheduleIdle]; split <;> simp [hv]
  | keydown => simp only [stepPage, handleActivity, scheduleIdle]; split <;> simp [hv]
  | touchstart => simp only [stepPage, handleActivity, scheduleIdle]; split <;> simp [hv]
  | scroll w =>
    simp only [stepPage, handleScroll, handleActivity, scheduleIdle, updateScrollState]
    split <;> simp [hv]
  | syncRef => simpa [stepPage, syncRef] using hv
  | click w => simp [PageEvent.isClick] at he

theorem runPage_keeps_visible (trace : List PageEvent) (p : Page)
    (hnc : ∀ e ∈ trace, e.isClick = false) (hv : p.state.isIdleVisible = true) :
    (runPage p trace).state.isIdleVisible = true := by
  induction trace generalizing p with
  | nil => simpa [runPage] using hv
  | cons e rest ih =>
    have h1 := stepPage_keeps_visible p e (hnc e (List.mem_cons_self _ _)) hv
    simpa [runPage] using ih (stepPage p e) (fun x hx => hnc x (List.mem_cons_of_mem _ hx)) h1

/-- One event on a waiting monitor: either the quiet time reaches 5000 ms and the control
appears, or the monitor goes on waiting. -/
theorem monitoring_step (p : Page) (q : Nat) (e : PageEvent) (he : e.isClick = false)
    (hm : Monitoring p q) :
    (5000 ≤ quietStep q e ∧ (stepPage p e).state.isIdleVisible = true) ∨
      Monitoring (stepPage p e) (quietStep q e) := by
  obtain ⟨hv, href, hq, h, hvar, htimers⟩ := hm
  cases e with
  | elapse ms =>
    by_cases hms : 5000 ≤ q + ms
    · left
      refine ⟨hms, ?_⟩
      have hdue : 5000 - q ≤ ms := by omega
      simp [stepPage, elapse, htimers, hdue]
    · right
      have hleft : ms < 5000 - q := by omega
      refine ⟨?_, ?_, by simp only [quietStep]; omega, h, ?_, ?_⟩
      · have hnot : ¬ 5000 - q ≤ ms := by omega
        simp [stepPage, elapse, htimers, hnot, hv]
      · simpa [stepPage, elapse] using href
      · simpa [stepPage, elapse] using hvar
      · simp only [stepPage, elapse, htimers, quietStep]
        simp [hleft]
        omega
  | mousemove =>
    right
    refine ⟨?_, ?_, by simp [quietStep], p.nextHandle, ?_, ?_⟩ <;>
      simp [stepPage, handleActivity, scheduleIdle, clearTimeout, href, hv, hvar, htimers,
        quietStep, idleDelay]
  | keydown =>
    right
    refine ⟨?_, ?_, by simp [quietStep], p.nextHandle, ?_, ?_⟩ <;>
      simp [stepPage, handleActivity, scheduleIdle, clearTimeout, href, hv, hvar, htimers,
        quietStep, idleDelay]
  | touchstart =>
    right
    refine ⟨?_, ?_, by simp [quietStep], p.nextHandle, ?_, ?_⟩ <;>
      simp [stepPage, handleActivity, scheduleIdle, clearTimeout, href, hv, hvar, htimers,
        quietStep, idleDelay]
  | scroll w =>
    right
    refine ⟨?_, ?_, by simp [quietStep], p.nextHandle, ?_, ?_⟩ <;>
      simp [stepPage, handleScroll, handleActivity, scheduleIdle, clearTimeout,
        updateScrollState, href, hv, hvar, htimers, quietStep, idleDelay]
  | syncRef =>
    right
    refine ⟨?_, ?_, by simpa [quietStep] using hq, h, ?_, ?_⟩ <;>
      simp [stepPage, syncRef, hv, hvar, htimers, quietStep]
  | click w => simp [PageEvent.isClick] at he

/-- From a monitor that has just been restarted and through any events without a click:
either an idle gap has elapsed and the control is visible, or none has and the monitor is
waiting. -/
theorem monitoring_run (p : Page) (trace : List PageEvent)
    (hnc : ∀ e ∈ trace, e.isClick = false) (hstart : Monitoring p 0) :
    (IdleGapElapsed trace ∧ (runPage p trace).state.isIdleVisible = true) ∨
      (¬ IdleGapElapsed trace ∧ Monitoring (runPage p trace) (quietSince trace)) := by
  induction trace using List.reverseRecOn with
  | nil =>
    right
    constructor
    · rintro ⟨pre, hpre, hq⟩
      have : pre = [] := List.prefix_nil.mp hpre
      subst this
      simp [quietSince] at hq
    · simpa [runPage, quietSince] using hstart
  | append_singleton trace e ih =>
    have he : e.isClick = false := hnc e (by simp)
    have hnc2 : ∀ x ∈ trace, x.isClick = false := fun x hx => hnc x (by simp [hx])
    rw [runPage_concat, idleGapElapsed_concat, quietSince_concat]
    rcases ih hnc2 with ⟨hgap, hv⟩ | ⟨hgap, hm⟩
    · exact Or.inl ⟨Or.inl hgap, stepPage_keeps_visible _ e he hv⟩
    · rcases monitoring_step _ _ e he hm with ⟨hq, hv⟩ | hm2
      · exact Or.inl ⟨Or.inr hq, hv⟩
      · right
        refine ⟨?_, hm2⟩
        rintro (h | h)
        · exact hgap h
        · have := hm2.2.2.1
          omega

/-- The control is visible exactly when an idle gap has elapsed since the restart. -/
theorem monitoring_visible_iff (p : Page) (trace : List PageEvent)
    (hnc : ∀ e ∈ trace, e.isClick = false) (hstart : Monitoring p 0) :
    (runPage p trace).state.isIdleVisible = true ↔ IdleGapElapsed trace := by
  rcases monitoring_run p trace hnc hstart with ⟨hgap, hv⟩ | ⟨hgap, hm⟩
  · exact ⟨fun _ => hgap, fun _ => hv⟩
  · constructor
    · intro hv
      rw [hm.1] at hv
      exact absurd hv (by simp)
    · intro h
      exact absurd h hgap

/-- Right after load the monitor is waiting with the full delay ahead. -/
theorem mount_monitoring (w : Viewport) : Monitoring (mount w) 0 := by
  refine ⟨?_, ?_, by decide, 1, ?_, ?_⟩ <;>
    simp [mount, scheduleIdle, clearTimeout, updateScrollState, idleDelay]

/-- At most one timeout is ever pending, and it is the one `idleTimer` names: every
`scheduleIdle` clears the timeout before it sets the next. -/
theorem reachable_single_timer (w : Viewport) (trace : List PageEvent) :
    (runPage (mount w) trace).timers = [] ∨
      ∃ h r, (runPage (mount w) trace).idleTimer = some h ∧
        (runPage (mount w) trace).timers = [(h, r)] := by
  induction trace using List.reverseRecOn with
  | nil =>
    right
    exact ⟨1, 5000, by simp [runPage, mount, scheduleIdle],
      by simp [runPage, mount, scheduleIdle, clearTimeout, idleDelay]⟩
  | append_singleton trace e ih =>
    rw [runPage_concat]
    generalize runPage (mount w) trace = p at ih
    have hsched : ∃ h r, (scheduleIdle p).idleTimer = some h ∧
        (scheduleIdle p).timers = [(h, r)] := by
      refine ⟨p.nextHandle, idleDelay, rfl, ?_⟩
      rcases ih with h0 | ⟨h, r, hvar, ht⟩
      · cases hv : p.idleTimer <;> simp [scheduleIdle, clearTimeout, h0, hv]
      · simp [scheduleIdle, clearTimeout, hvar, ht]
    cases e with
    | elapse ms =>
      rcases ih with h0 | ⟨h, r, hvar, ht⟩
      · left
        simp [stepPage, elapse, h0]
      · by_cases hms : ms < r
        · right
          exact ⟨h, r - ms, by simpa [stepPage, elapse] using hvar,
            by simp [stepPage, elapse, ht, hms]⟩
        · left
          simp [stepPage, elapse, ht, hms]
    | mousemove =>
      simp only [stepPage, handleActivity]
      split
      · exact Or.inr hsched
      · exact ih
    | keydown =>
      simp only [stepPage, handleActivity]
      split
      · exact Or.inr hsched
      · exact ih
    | touchstart =>
      simp only [stepPage, handleActivity]
      split
      · exact Or.inr hsched
      · exact ih
    | scroll w2 =>
      simp only [stepPage, handleScroll, handleActivity]
      split
      · exact Or.inr hsched
      · exact ih
    | syncRef => simpa [stepPage, syncRef] using ih
    | click w2 =>
      have h1 : (clickIndicator w2 p).timers = p.timers := by
        simp only [clickIndicator, handleScrollIndicator]
        split <;> simp [applyIndicatorEffect]
      have h2 : (clickIndicator w2 p).idleTimer = p.idleTimer := by
        simp only [clickIndicator, handleScrollIndicator]
        split <;> simp [applyIndicatorEffect]
      simpa [stepPage, h1, h2] using ih

/-- A click hides the control and touches nothing else of the component. -/
theorem clickIndicator_eq (w : Viewport) (p : Page) :
    clickIndicator w p = { p with state := { p.state with isIdleVisible := false } } := by
  simp only [clickIndicator, handleScrollIndicator]
  split <;> rfl

/-- After a click, the ref effect and one activity signal, the monitor of a page reached
from load is waiting with the full delay ahead. -/
theorem monitoring_after_click (w0 : Viewport) (trace : List PageEvent) (w : Viewport)
    (a : PageEvent) (ha : a.isActivity = true) :
    Monitoring (runPage (runPage (mount w0) trace) [.click w, .syncRef, a]) 0 := by
  have hone := reachable_single_timer w0 trace
  generalize runPage (mount w0) trace = p at hone
  have htimers : ∃ h, (scheduleIdle p).idleTimer = some h ∧
      (scheduleIdle p).timers = [(h, 5000 - 0)] := by
    refine ⟨p.nextHandle, rfl, ?_⟩
    rcases hone with h0 | ⟨h, r, hvar, ht⟩
    · cases hv : p.idleTimer <;> simp [scheduleIdle, clearTimeout, h0, hv, idleDelay]
    · simp [scheduleIdle, clearTimeout, hvar, ht, idleDelay]
  obtain ⟨h, hvar, ht⟩ := htimers
  cases a with
  | elapse ms => simp [PageEvent.isActivity] at ha
  | syncRef => simp [PageEvent.isActivity] at ha
  | click w2 => simp [PageEvent.isActivity] at ha
  | mousemove =>
    refine ⟨?_, ?_, by decide, h, ?_, ?_⟩ <;>
      simp_all [runPage, stepPage, clickIndicator_eq, syncRef, handleActivity, scheduleIdle]
  | keydown =>
    refine ⟨?_, ?_, by decide, h, ?_, ?_⟩ <;>
      simp_all [runPage, stepPage, clickIndicator_eq, syncRef, handleActivity, scheduleIdle]
  | touchstart =>
    refine ⟨?_, ?_, by decide, h, ?_, ?_⟩ <;>
      simp_all [runPage, stepPage, clickIndicator_eq, syncRef, handleActivity, scheduleIdle]
  | scroll w2 =>
    refine ⟨?_, ?_, by decide, h, ?_, ?_⟩ <;>
      simp_all [runPage, stepPage, clickIndicator_eq, syncRef, handleScroll, handleActivity,
        scheduleIdle, updateScrollState]

/-! ## Theorems of the specification: the idle monitor and the floating control -/

/-- C11: from page load and through every timed sequence of activity signals without a
click on the control, `isIdleVisible` is true if and only if some interval of at least
5000 ms without an activity signal, counted from load or from a signal, has fully elapsed;
if no such interval ever elapses it is false at every moment of the sequence, and once it
is true further signals leave it true. -/
theorem idleVisible_iff_idleGapElapsed (w : Viewport) (trace : List PageEvent)
    (hnc : ∀ e ∈ trace, e.isClick = false) :
    ((runPage (mount w) trace).state.isIdleVisible = true ↔
        ∃ pre, pre <+: trace ∧ 5000 ≤ quietSince pre) ∧
      ((∀ pre, pre <+: trace → quietSince pre < 5000) →
        ∀ pre, pre <+: trace → (runPage (mount w) pre).state.isIdleVisible = false) ∧
      (∀ rest, (∀ e ∈ rest, e.isClick = false) →
        (runPage (mount w) trace).state.isIdleVisible = true →
        (runPage (mount w) (trace ++ rest)).state.isIdleVisible = true) := by
  refine ⟨monitoring_visible_iff (mount w) trace hnc (mount_monitoring w), ?_, ?_⟩
  · intro hshort pre hpre
    have hnc2 : ∀ e ∈ pre, e.isClick = false := fun e he => hnc e (hpre.subset he)
    have hiff := monitoring_visible_iff (mount w) pre hnc2 (mount_monitoring w)
    cases hv : (runPage (mount w) pre).state.isIdleVisible with
    | false => rfl
    | true =>
      obtain ⟨pre2, hpre2, hq⟩ := hiff.mp hv
      have := hshort pre2 (hpre2.trans hpre)
      omega
  · intro rest hrest hv
    rw [runPage_append]
    exact runPage_keeps_visible rest _ hrest hv

/-- C12: for every state and every measurement of the window, `handleScrollIndicator`
first sets `isIdleVisible` to false and then asks for exactly one smooth scroll, to offset
0 when `isAtBottom` is true and to the scroll offset plus the viewport height otherwise,
the sum being that of the Numbers of the program. -/
theorem handleScrollIndicator_effects (st : AppState) (w : Viewport) :
    (handleScrollIndicator st w).head? = some (.setIsIdleVisible false) ∧
      (handleScrollIndicator st w).tail =
        [.scrollTo (if st.isAtBottom = true then Double.ofNat 0
          else Double.add w.scrollY w.innerHeight) "smooth"] ∧
      (handleScrollIndicator st w).countP IndicatorEffect.isScrollTo = 1 ∧
      ∀ p : Page, p.state = st → (clickIndicator w p).state.isIdleVisible = false := by
  refine ⟨rfl, ?_, ?_, fun p _ => by simp [clickIndicator_eq]⟩
  · cases h : st.isAtBottom <;> simp [handleScrollIndicator, h]
  · cases h : st.isAtBottom <;> simp [handleScrollIndicator, h, IndicatorEffect.isScrollTo]

/-- C13 (amended): on every page reached from load, a click on the control sets
`isIdleVisible` to false and leaves the timeouts as they were; after the ref effect has
run, the next activity signal schedules a fresh 5000 ms timeout, so that from that signal
on `isIdleVisible` becomes true again exactly when 5000 ms pass without a signal. -/
theorem handleScrollIndicator_restarts_on_activity (w0 : Viewport) (trace : List PageEvent)
    (w : Viewport) :
    (clickIndicator w (runPage (mount w0) trace)).state.isIdleVisible = false ∧
      (clickIndicator w (runPage (mount w0) trace)).timers =
        (runPage (mount w0) trace).timers ∧
      (clickIndicator w (runPage (mount w0) trace)).idleTimer =
        (runPage (mount w0) trace).idleTimer ∧
      (∀ a rest, a.isActivity = true → (∀ e ∈ rest, e.isClick = false) →
        ((runPage (mount w0) (trace ++ .click w :: .syncRef :: a :: rest)
            ).state.isIdleVisible = true ↔
          ∃ pre, pre <+: rest ∧ 5000 ≤ quietSince pre)) := by
  refine ⟨by simp [clickIndicator_eq], by simp [clickIndicator_eq],
    by simp [clickIndicator_eq], fun a rest ha hrest => ?_⟩
  have hm := monitoring_after_click w0 trace w a ha
  have hsplit : trace ++ .click w :: .syncRef :: a :: rest =
      trace ++ ([.click w, .syncRef, a] ++ rest) := by simp
  rw [hsplit, runPage_append, runPage_append]
  exact monitoring_visible_iff _ rest hrest hm

/-! ## The idle monitor at sample inputs -/

/-- In the sample visit the control appears: after the key press 5000 ms pass without a
signal. -/
theorem idleVisible_iff_idleGapElapsed_witness :
    (∀ e ∈ sampleVisit, e.isClick = false) ∧
      (runPage (mount tallWindow) sampleVisit).state.isIdleVisible = true :=
  have hnc : ∀ e ∈ sampleVisit, e.isClick = false := by decide
  ⟨hnc, (idleVisible_iff_idleGapElapsed tallWindow sampleVisit hnc).1.mpr
    ⟨[.elapse 1200, .mousemove, .elapse 4999, .scroll tallWindow, .elapse 3000, .keydown,
        .elapse 2000, .syncRef, .elapse 3000], ⟨[.touchstart], rfl⟩, by decide⟩⟩

/-- C13 as stated fails on a page that cannot scroll: the control is visible 5000 ms
after load; the click hides it and leaves no timeout pending, and with no activity signal
after the click the control is still hidden 5000 ms later, and ten minutes later. -/
theorem handleScrollIndicator_restarts_counterexample :
    idlePage.state.isIdleVisible = true ∧
      (clickIndicator shortWindow idlePage).state.isIdleVisible = false ∧
      (clickIndicator shortWindow idlePage).timers = [] ∧
      (runPage idlePage [.click shortWindow, .syncRef, .elapse 5000]).state.isIdleVisible =
        false ∧
      (runPage idlePage [.click shortWindow, .elapse 5000]).state.isIdleVisible = false ∧
      (runPage idlePage [.click shortWindow, .syncRef, .elapse 600000]).state.isIdleVisible =
        false := by
  simp [idlePage, clickIndicator_eq, runPage, stepPage, mount, scheduleIdle, clearTimeout,
    elapse, syncRef, updateScrollState, idleDelay]

/-- After the click on the idle page, a mouse move and 5000 quiet ms bring the control
back. -/
theorem handleScrollIndicator_restarts_on_activity_witness :
    (runPage (mount shortWindow)
        ([.elapse 5000, .syncRef] ++
          .click shortWindow :: .syncRef :: .mousemove :: [.elapse 5000])
      ).state.isIdleVisible = true :=
  ((handleScrollIndicator_restarts_on_activity shortWindow [.elapse 5000, .syncRef]
      shortWindow).2.2.2 .mousemove [.elapse 5000] rfl (by decide)).mpr
    ⟨[.elapse 5000], List.prefix_refl _, by decide⟩

/-! ## Auxiliary facts on doubles -/

theorem bitLengthAux_le (fuel : Nat) :
    ∀ m b : Nat, m < 2 ^ b → bitLengthAux fuel m ≤ b := by
  induction fuel with
  | zero => intro m b _; simp [bitLengthAux]
  | succ fuel ih =>
    intro m b hm
    unfold bitLengthAux
    split
    · exact Nat.zero_le _
    · rename_i hne
      cases b with
      | zero =>
        simp at hm
        exact absurd hm hne
      | succ b =>
        have h2 : m / 2 < 2 ^ b := by
          rw [Nat.div_lt_iff_lt_mul (by decide)]
          rw [pow_succ] at hm
          exact hm
        have := ih (m / 2) b h2
        omega

theorem mul_pow_lt (n k : Nat) (hn : n < 2 ^ 53) : n * 2 ^ k < 2 ^ (53 + k) := by
  rw [pow_add]
  exact Nat.mul_lt_mul_of_pos_right hn (by positivity)

theorem mul_pow_lt_of_le (n k j : Nat) (hn : n < 2 ^ 53) (h : 53 + k ≤ j) :
    n * 2 ^ k < 2 ^ j :=
  lt_of_lt_of_le (mul_pow_lt n k hn) (Nat.pow_le_pow_right (by decide) h)

/-- A whole number below 2^53, scaled by a power of two, has at most 53 significant
digits: the rounding leaves it as it is. -/
theorem roundBits_mul_pow (n k : Nat) (hn : n < 2 ^ 53) :
    roundBits (n * 2 ^ k) = n * 2 ^ k := by
  unfold roundBits
  split
  · rfl
  · have hlen : bitLength (n * 2 ^ k) ≤ 53 + k := bitLengthAux_le _ _ _ (mul_pow_lt n k hn)
    have hs : bitLength (n * 2 ^ k) - 53 ≤ k := by omega
    have hdvd : 2 ^ (bitLength (n * 2 ^ k) - 53) ∣ n * 2 ^ k :=
      Dvd.dvd.mul_left (pow_dvd_pow 2 hs) n
    have hmod : n * 2 ^ k % 2 ^ (bitLength (n * 2 ^ k) - 53) = 0 :=
      Nat.mod_eq_zero_of_dvd hdvd
    have hhalf : 0 < 2 ^ (bitLength (n * 2 ^ k) - 53 - 1) := by positivity
    simp only [hmod, hhalf, if_true]
    exact Nat.div_mul_cancel hdvd

theorem Double.round_mul_pow (neg : Bool) (n : Nat) (hn : n < 2 ^ 53) :
    Double.round neg (n * 2 ^ 1074) = .fin neg (n * 2 ^ 1074) := by
  have hlt : n * 2 ^ 1074 < 2 ^ 2098 := mul_pow_lt_of_le n 1074 2098 hn (by decide)
  unfold Double.round
  rw [roundBits_mul_pow n 1074 hn, if_neg (Nat.not_le.mpr hlt)]

/-- A whole number below 2^53 is a double. -/
theorem Double.ofNat_eq (n : Nat) (hn : n < 2 ^ 53) :
    Double.ofNat n = .fin false (n * 2 ^ 1074) :=
  Double.round_mul_pow false n hn

/-- The sum of two whole numbers is exact as long as it stays below 2^53. -/
theorem Double.add_ofNat (a b : Nat) (h : a + b < 2 ^ 53) :
    Double.add (Double.ofNat a) (Double.ofNat b) = Double.ofNat (a + b) := by
  rw [Double.ofNat_eq a (by omega), Double.ofNat_eq b (by omega)]
  simp only [Double.add, if_true]
  rw [← Nat.add_mul]
  rfl

/-- The difference of two whole numbers below 2^53 is exact. -/
theorem Double.sub_ofNat (c d : Nat) (hc : c < 2 ^ 53) (hd : d < 2 ^ 53) :
    Double.sub (Double.ofNat c) (Double.ofNat d) =
      if d ≤ c then .fin false ((c - d) * 2 ^ 1074) else .fin true ((d - c) * 2 ^ 1074) := by
  have hK : 0 < 2 ^ 1074 := by positivity
  rw [Double.ofNat_eq c hc, Double.ofNat_eq d hd]
  simp only [Double.sub, Double.neg, Double.add, Bool.not_false]
  rw [if_neg (by decide)]
  by_cases hcd : c = d
  · subst hcd
    rw [if_pos rfl, if_pos (Nat.le_refl c)]
    simp only [Nat.sub_self, Nat.zero_mul]
  · have hne : ¬ c * 2 ^ 1074 = d * 2 ^ 1074 := fun h => hcd (Nat.eq_of_mul_eq_mul_right hK h)
    rw [if_neg hne]
    by_cases hlt : d < c
    · have h1 : d * 2 ^ 1074 < c * 2 ^ 1074 := Nat.mul_lt_mul_of_pos_right hlt hK
      rw [if_pos h1, if_pos (Nat.le_of_lt hlt), ← Nat.sub_mul]
      exact Double.round_mul_pow false (c - d) (by omega)
    · have h1 : ¬ d * 2 ^ 1074 < c * 2 ^ 1074 := fun h => hlt (Nat.lt_of_mul_lt_mul_right h)
      rw [if_neg h1, if_neg (by omega), ← Nat.sub_mul]
      exact Double.round_mul_pow true (d - c) (by omega)

/-- On whole-pixel measurements below 2^53 the sum and the difference of
`updateScrollState` are exact, and `isAtBottom` is the comparison of the integers. -/
theorem updateScrollState_whole_pixels (a b c : Nat) (hab : a + b < 2 ^ 53)
    (hc : c < 2 ^ 53) (st : AppState) :
    (updateScrollState
        { innerHeight := Double.ofNat a, scrollY := Double.ofNat b,
          scrollHeight := Double.ofNat c } st).isAtBottom = true ↔
      (c : Int) - 4 ≤ (a : Int) + (b : Int) := by
  have hK : 0 < 2 ^ 1074 := by positivity
  have h4 : (4 : Nat) < 2 ^ 53 := by decide
  simp only [updateScrollState]
  rw [Double.add_ofNat a b hab, Double.ofNat_eq (a + b) hab, Double.sub_ofNat c 4 hc h4]
  by_cases hge : 4 ≤ c
  · rw [if_pos hge]
    simp only [Double.ge, signedMag, decide_eq_true_eq, Bool.false_eq_true, if_false]
    have hiff : (c - 4) * 2 ^ 1074 ≤ (a + b) * 2 ^ 1074 ↔ c - 4 ≤ a + b :=
      ⟨fun h => Nat.le_of_mul_le_mul_right h hK, fun h => Nat.mul_le_mul_right _ h⟩
    rw [Int.ofNat_le, hiff]
    omega
  · rw [if_neg hge]
    simp only [Double.ge, signedMag, decide_eq_true_eq, Bool.false_eq_true, if_false, if_true]
    constructor
    · intro _
      omega
    · intro _
      have h1 : (0 : Int) ≤ (((a + b) * 2 ^ 1074 : Nat) : Int) := Int.ofNat_nonneg _
      have h2 : (0 : Int) ≤ (((4 - c) * 2 ^ 1074 : Nat) : Int) := Int.ofNat_nonneg _
      omega

/-- On whole-pixel measurements below 2^53 the target of the forward scroll is the exact
sum. -/
theorem handleScrollIndicator_whole_pixels (st : AppState) (a b : Nat) (c : Double)
    (hab : b + a < 2 ^ 53) (hst : st.isAtBottom = false) :
    handleScrollIndicator st
        { innerHeight := Double.ofNat a, scrollY := Double.ofNat b, scrollHeight := c } =
      [.setIsIdleVisible false, .scrollTo (Double.ofNat (b + a)) "smooth"] := by
  simp [handleScrollIndicator, hst, Double.add_ofNat b a hab]

/-- A sum that is rounded: with viewport height 800, scroll offset 1 - 2^-53 and document
height 805 the exact sum is below 805 - 4 = 801, the sum of the program is 801, and
`isAtBottom` is set to true. -/
theorem updateScrollState_rounds_sum (st : AppState) :
    signedMag false (800 * 2 ^ 1074) + signedMag false (2 ^ 1074 - 2 ^ 1021) <
        signedMag false (805 * 2 ^ 1074) - signedMag false (4 * 2 ^ 1074) ∧
      Double.add roundingWindow.innerHeight roundingWindow.scrollY = Double.ofNat 801 ∧
      (updateScrollState roundingWindow st).isAtBottom = true := by
  have h1 : signedMag false (800 * 2 ^ 1074) + signedMag false (2 ^ 1074 - 2 ^ 1021) <
      signedMag false (805 * 2 ^ 1074) - signedMag false (4 * 2 ^ 1074) := by decide!
  have h2 : Double.add roundingWindow.innerHeight roundingWindow.scrollY =
      Double.ofNat 801 := by decide!
  have h3 : Double.ge (Double.add roundingWindow.innerHeight roundingWindow.scrollY)
      (Double.sub roundingWindow.scrollHeight (Double.ofNat 4)) = true := by decide!
  refine ⟨h1, h2, ?_⟩
  simp only [updateScrollState]
  exact h3

/-- The same rounding in the target of the forward scroll: from scroll offset 1 - 2^-53
with viewport height 800 the handler asks for offset 801. -/
theorem handleScrollIndicator_rounds_sum (st : AppState) (hst : st.isAtBottom = false) :
    handleScrollIndicator st roundingWindow =
      [.setIsIdleVisible false, .scrollTo (Double.ofNat 801) "smooth"] := by
  have h3 : Double.add roundingWindow.scrollY roundingWindow.innerHeight =
      Double.ofNat 801 := by decide!
  simp only [handleScrollIndicator, hst, h3, Bool.false_eq_true, if_false]

end Portfolio
